import Mathlib

/-!
Verification of the Searchive document-management backend.

A shallow embedding of the keyword-extraction orchestrator
(`src/core/keyword_extraction.py`), the Elasticsearch TF-IDF term scorer
(`src/core/elasticsearch_client.py`), the upload/delete pipeline
(`src/domains/documents/service.py`), the text-extractor MIME dispatch
(`src/core/text_extractor.py`) and the tag repository
(`src/domains/tags/repository.py`).

Python strings are modelled as `List Char`; Python exceptions as
`Except String`; outcomes of external calls (Elasticsearch, MinIO, the
database, the KeyBERT library) are supplied by explicit environment
records, so that each code path is a pure function of the environment.
-/

/-! ## Python string operations: `str.strip`, `str.lower` -/

/-- Model of Python `str.strip()`: drop whitespace from both ends. -/
def pyStrip (s : List Char) : List Char :=
  (s.dropWhile Char.isWhitespace).rdropWhile Char.isWhitespace

/-- Model of Python `str.lower()` (ASCII letters, as exercised by the code). -/
def pyLower (s : List Char) : List Char :=
  s.map Char.toLower

/-! ## MIME validation set and text-extractor dispatch

`ALLOWED_MIME_TYPES` is the upload validation set from
`src/domains/documents/service.py`; `extract_text_dispatch` mirrors the
`if`/`elif` chain of `TextExtractor.extract_text_from_bytes`. -/

/-- The upload pipeline's accepted MIME types (`service.py`, lines 21-30). -/
def ALLOWED_MIME_TYPES : List String :=
  [ "application/pdf",
    "text/plain",
    "application/vnd.openxmlformats-officedocument.spreadsheetml.sheet",
    "application/vnd.ms-excel",
    "application/msword",
    "application/vnd.openxmlformats-officedocument.wordprocessingml.document",
    "application/vnd.ms-powerpoint",
    "application/vnd.openxmlformats-officedocument.presentationml.presentation" ]

/-- The HWP MIME types the text extractor can handle (`text_extractor.py`). -/
def HWP_MIME_TYPES : List String :=
  [ "application/x-hwp", "application/haansofthwp", "application/vnd.hancom.hwp" ]

/-- Branch of `TextExtractor.extract_text_from_bytes` taken for a MIME type. -/
inductive ExtractorBranch
  | pdf | txt | docx | excel | pptx | hwp | unsupported
deriving DecidableEq

/-- The MIME dispatch of `TextExtractor.extract_text_from_bytes`
(`text_extractor.py`, lines 30-58), branch by branch in source order. -/
def extract_text_dispatch (file_type : String) : ExtractorBranch :=
  if file_type = "application/pdf" then .pdf
  else if file_type = "text/plain" then .txt
  else if file_type = "application/vnd.openxmlformats-officedocument.wordprocessingml.document"
          ∨ file_type = "application/msword" then .docx
  else if file_type = "application/vnd.openxmlformats-officedocument.spreadsheetml.sheet"
          ∨ file_type = "application/vnd.ms-excel" then .excel
  else if file_type = "application/vnd.openxmlformats-officedocument.presentationml.presentation"
          ∨ file_type = "application/vnd.ms-powerpoint" then .pptx
  else if file_type = "application/x-hwp" ∨ file_type = "application/haansofthwp"
          ∨ file_type = "application/vnd.hancom.hwp" then .hwp
  else .unsupported

/-! ## Elasticsearch TF-IDF term extraction (`extract_significant_terms`)

`ElasticsearchClient.extract_significant_terms` (`elasticsearch_client.py`,
lines 298-336) reads per-term statistics `(term_freq, doc_freq)` and the
corpus document count from the Term Vectors API, scores each term with
`tf * (ln((total+1)/(df+1)) + 1)`, keeps terms of character length 2..30,
sorts descending by score (`list.sort` with `reverse=True`, a stable sort)
and returns the top `size` terms.

The per-term statistics arrive in response order, modelled by the order of
the `List TermStat`. The float score comparison is modelled by an abstract
Boolean comparator `le`; the theorems relate `le` to the exact real-valued
score `tf * (Real.log ((total+1)/(df+1)) + 1)`. -/

/-- One entry of the Term Vectors response: a term with its term frequency
and document frequency. -/
structure TermStat where
  term : String
  tf : Nat
  df : Nat
deriving DecidableEq

/-- The length filter `2 <= len(term) <= 30` of `extract_significant_terms`. -/
def term_length_ok (t : TermStat) : Bool :=
  2 ≤ t.term.length && t.term.length ≤ 30

/-- `ElasticsearchClient.extract_significant_terms`, happy path: filter the
response terms by length, sort descending by TF-IDF score (stable), return
the top `size` terms. `le a b` models "score of `a` is at least score of
`b`" on Python floats. -/
def extract_significant_terms (le : TermStat → TermStat → Bool)
    (stats : List TermStat) (size : Nat) : List String :=
  ((((stats.filter term_length_ok).mergeSort le)).map TermStat.term).take size

/-! ## Keyword-extraction orchestrator (`keyword_extraction.py`)

External behaviour is captured by `KeywordEnv`: the outcome of the
Elasticsearch count call, the outcome of loading the KeyBERT model
(import plus `KeyBERT()` construction), the outcome of the KeyBERT model
call for a given text, and the outcome of the Elasticsearch
significant-terms call for a given document id. -/

/-- Environment of one `HybridKeywordExtractionService.extract_keywords`
call: outcomes of every external interaction it may perform. -/
structure KeywordEnv where
  /-- Outcome of `self.client.count(...)` inside `get_document_count`. -/
  countResult : Except String Nat
  /-- Outcome of `_load_model()`: `from keybert import KeyBERT` followed by
  `self.model = KeyBERT()`. On failure, the raised exception: the `try`
  catches only `ImportError` (re-raised with a fixed message), and any
  other `KeyBERT()` constructor failure propagates as-is. -/
  keybertLoad : Except String Unit
  /-- Outcome of `self.model.extract_keywords(text, ...)` in `KeyBERTExtractor`. -/
  keybertResult : List Char → Except String (List (List Char))
  /-- Outcome of `elasticsearch_client.extract_significant_terms(document_id)`. -/
  esSignificant : Nat → Except String (List (List Char))

/-- `ElasticsearchClient.get_document_count`: the count on success, and `0`
when the count query raises (`except` branch, lines 265-267). -/
def get_document_count (r : Except String Nat) : Nat :=
  match r with
  | .ok n => n
  | .error _ => 0

/-- `KeyBERTExtractor.extract_keywords`: the `self._load_model()` call sits
outside the extractor's `try`, so every load failure — the re-raised
`ImportError` when the library is missing, or an uncaught `KeyBERT()`
constructor failure (`_load_model`'s `try` catches only `ImportError`) —
propagates to the caller; once the model is loaded, any failure of
`model.extract_keywords` inside the `try` is caught and turned into `[]`. -/
def keybert_extract_keywords (env : KeywordEnv) (text : List Char) :
    Except String (List (List Char)) :=
  match env.keybertLoad with
  | .error e => .error e
  | .ok _ =>
    match env.keybertResult text with
    | .ok kws => .ok kws
    | .error _ => .ok []

/-- `ElasticsearchExtractor.extract_keywords`: `[]` when `document_id` is
missing, and `[]` whenever the Elasticsearch call fails (both the inner
`try` of `extract_significant_terms` and the extractor's own `try` catch
everything). -/
def elasticsearch_extract_keywords (env : KeywordEnv) (documentId : Option Nat) :
    List (List Char) :=
  match documentId with
  | none => []
  | some id =>
    match env.esSignificant id with
    | .ok kws => kws
    | .error _ => []

/-- Step 3 of `HybridKeywordExtractionService.extract_keywords`:
`list(set(kw.strip().lower() for kw in keywords if kw.strip()))`. -/
def normalize_keywords (keywords : List (List Char)) : List (List Char) :=
  ((keywords.filter (fun kw => !(pyStrip kw).isEmpty)).map
    (fun kw => pyLower (pyStrip kw))).dedup

/-- `HybridKeywordExtractionService.extract_keywords`
(`keyword_extraction.py`, lines 142-178): read the corpus document count,
pick KeyBERT when it is below the threshold and Elasticsearch otherwise,
then normalize, returning `(keywords, method)`. -/
def hybrid_extract_keywords (env : KeywordEnv) (threshold : Nat)
    (text : List Char) (documentId : Option Nat) :
    Except String (List (List Char) × String) :=
  let document_count := get_document_count env.countResult
  if document_count < threshold then
    match keybert_extract_keywords env text with
    | .ok keywords => .ok (normalize_keywords keywords, "keybert")
    | .error e => .error e
  else
    .ok (normalize_keywords (elasticsearch_extract_keywords env documentId),
         "elasticsearch")

/-! ## Document upload and deletion (`documents/service.py`)

`UploadEnv` supplies the outcome of each external call of
`DocumentService.upload_document`; `upload_document` mirrors the source's
control flow, including the generic `except Exception` handler that turns
any uncaught exception into an HTTP 500. The pair of Booleans in
`StoreState` records which artefacts (blob, Document row) exist when the
call returns; the code never deletes either after creating it. -/

/-- Outcomes of the external calls made by `upload_document`. -/
structure UploadEnv where
  /-- Outcome of `minio_client.upload_file(...)`. -/
  minioUpload : Except String Unit
  /-- Outcome of `document_repository.create(...)`: the new document id. -/
  dbCreate : Except String Nat
  /-- Result of `text_extractor.extract_text_from_bytes(...)`
  (`Optional[str]`; the extractor catches all exceptions and returns `None`). -/
  extractText : Option (List Char)
  /-- Result of `elasticsearch_client.index_document(...)` (a Boolean the
  source does not even inspect). -/
  indexResult : Bool
  /-- Environment of the keyword-extraction service call. -/
  keyword : KeywordEnv
  /-- Outcome of `tag_service.attach_tags_to_document(...)`: tags as
  `(tag_id, name)` pairs. -/
  attachTags : Except String (List (Nat × List Char))

/-- Caller-visible outcome of `upload_document`. -/
inductive UploadOutcome
  | rejected (statusCode : Nat)
  | ok (documentId : Nat) (tags : List (Nat × List Char)) (method : String)
deriving DecidableEq

/-- Which artefacts exist after the call: the MinIO blob and the Document row. -/
structure StoreState where
  blobStored : Bool
  rowStored : Bool
deriving DecidableEq

/-- `DocumentService.upload_document` (`service.py`, lines 48-159): validate
the MIME type, upload to MinIO, persist the Document row, extract text
(degrading to zero tags and method `"none"` on missing/short text), index,
extract keywords, attach tags. Uncaught exceptions become HTTP 500. -/
def upload_document (env : UploadEnv) (threshold : Nat) (contentType : String) :
    UploadOutcome × StoreState :=
  if ¬ contentType ∈ ALLOWED_MIME_TYPES then
    (.rejected 400, ⟨false, false⟩)
  else
    match env.minioUpload with
    | .error _ => (.rejected 500, ⟨false, false⟩)
    | .ok _ =>
      match env.dbCreate with
      | .error _ => (.rejected 500, ⟨true, false⟩)
      | .ok documentId =>
        match env.extractText with
        | none => (.ok documentId [] "none", ⟨true, true⟩)
        | some extractedText =>
          if extractedText.isEmpty || (pyStrip extractedText).length < 10 then
            (.ok documentId [] "none", ⟨true, true⟩)
          else
            -- `index_document` never raises and its Boolean result is ignored.
            match hybrid_extract_keywords env.keyword threshold extractedText
                (some documentId) with
            | .error _ => (.rejected 500, ⟨true, true⟩)
            | .ok (keywords, extractionMethod) =>
              if keywords.isEmpty then
                (.ok documentId [] extractionMethod, ⟨true, true⟩)
              else
                match env.attachTags with
                | .error _ => (.rejected 500, ⟨true, true⟩)
                | .ok tags => (.ok documentId tags extractionMethod, ⟨true, true⟩)

/-- Outcomes of the external calls made by `delete_document`. -/
structure DeleteEnv where
  /-- Result of `find_by_id_and_user_id`: the document's storage path, when
  found and owned by the caller. -/
  findDocument : Option String
  /-- Outcome of `minio_client.delete_file(storage_path)` (re-raises `S3Error`). -/
  minioDelete : Except String Unit
  /-- Result of `document_repository.delete(document)` (catches internally
  and returns a Boolean). -/
  dbDelete : Bool

/-- Caller-visible outcome of `delete_document`. -/
inductive DeleteOutcome
  | rejected (statusCode : Nat)
  | ok
deriving DecidableEq

/-- Which deletion steps ran and succeeded during `delete_document`. -/
structure DeleteTrace where
  blobDeleteAttempted : Bool
  blobDeleted : Bool
  rowDeleteAttempted : Bool
  rowDeleted : Bool
deriving DecidableEq

/-- `DocumentService.delete_document` (`service.py`, lines 193-249): 404 when
the document is not found; otherwise delete the blob, then the row. A raised
`S3Error` is caught by the generic handler and becomes HTTP 500 before the
row deletion is reached. -/
def delete_document (env : DeleteEnv) : DeleteOutcome × DeleteTrace :=
  match env.findDocument with
  | none => (.rejected 404, ⟨false, false, false, false⟩)
  | some _ =>
    match env.minioDelete with
    | .error _ => (.rejected 500, ⟨true, false, false, false⟩)
    | .ok _ =>
      if env.dbDelete then (.ok, ⟨true, true, true, true⟩)
      else (.rejected 500, ⟨true, true, true, false⟩)

/-! ## Tag repository (`tags/repository.py`)

The tags table is modelled as a list of `(tag_id, name)` rows plus the
autoincrement counter; the unique index `ix_tags_name` (migration
`4e704fe4fa10`) makes a commit that would duplicate a name fail with an
integrity error, rolling the transaction back. -/

/-- The tags table: rows `(tag_id, name)` and the autoincrement counter. -/
structure TagDB where
  rows : List (Nat × String)
  nextId : Nat
deriving DecidableEq

/-- `TagRepository.find_all_by_names`: one query for all rows whose name is
in `names` (returns `[]` for an empty list). -/
def find_all_by_names (db : TagDB) (names : List String) : List (Nat × String) :=
  if names.isEmpty then []
  else db.rows.filter (fun r => names.contains r.2)

/-- `TagRepository.bulk_create`: `add_all` + `commit`. The commit succeeds
only if no inserted name collides with an existing row or another inserted
name (unique index `ix_tags_name`); otherwise the transaction fails and the
table is unchanged. -/
def bulk_create (db : TagDB) (names : List String) :
    Except String (TagDB × List (Nat × String)) :=
  if names.Nodup ∧ ∀ n ∈ names, ((db.rows.map Prod.snd).contains n) = false then
    .ok ({ rows := db.rows ++ List.enumFrom db.nextId names,
           nextId := db.nextId + names.length },
         List.enumFrom db.nextId names)
  else
    .error "IntegrityError: duplicate key value violates unique index ix_tags_name"

/-- `TagRepository.bulk_get_or_create` (`repository.py`, lines 121-147):
read the existing rows, create only the names not found, return existing
plus created. -/
def bulk_get_or_create (db : TagDB) (names : List String) :
    Except String (TagDB × List (Nat × String)) :=
  if names.isEmpty then .ok (db, [])
  else
    let existing_tags := find_all_by_names db names
    let existing_tag_names := existing_tags.map Prod.snd
    let new_tag_names := names.filter (fun n => !existing_tag_names.contains n)
    if new_tag_names.isEmpty then .ok (db, existing_tags)
    else
      match bulk_create db new_tag_names with
      | .ok (db', new_tags) => .ok (db', existing_tags ++ new_tags)
      | .error e => .error e

/-- The read phase of one `bulk_get_or_create` call: the rows found and the
names still to create. -/
def bulk_read_phase (db : TagDB) (names : List String) :
    List (Nat × String) × List String :=
  let existing_tags := find_all_by_names db names
  (existing_tags, names.filter (fun n => !(existing_tags.map Prod.snd).contains n))

/-- The write phase of one `bulk_get_or_create` call: commit the new names
(if any) and assemble the returned tags. A failed commit leaves the table
unchanged and raises to the caller. -/
def bulk_write_phase (db : TagDB) (existing_tags : List (Nat × String))
    (new_tag_names : List String) : TagDB × Except String (List (Nat × String)) :=
  if new_tag_names.isEmpty then (db, .ok existing_tags)
  else
    match bulk_create db new_tag_names with
    | .ok (db', new_tags) => (db', .ok (existing_tags ++ new_tags))
    | .error e => (db, .error e)

/-- Two concurrent `bulk_get_or_create` calls under the schedule
"A reads, B reads, A commits, B commits" — a feasible interleaving, since
each `await`ed query is a suspension point. Returns the final table and
each caller's result. -/
def interleaved_bulk_get_or_create (db : TagDB) (namesA namesB : List String) :
    TagDB × Except String (List (Nat × String)) × Except String (List (Nat × String)) :=
  let readA := bulk_read_phase db namesA
  let readB := bulk_read_phase db namesB
  let commitA := bulk_write_phase db readA.1 readA.2
  let commitB := bulk_write_phase commitA.1 readB.1 readB.2
  (commitB.1, commitA.2, commitB.2)

/-! ## Character and string lemmas -/

/-- `Char.ofNat` at a scalar value below the surrogate range. -/
theorem char_toNat_ofNat (n : Nat) (h : n < 55296) : (Char.ofNat n).toNat = n := by
  have hv : n.isValidChar := Or.inl h
  rw [Char.ofNat, dif_pos hv]
  rfl

/-- Characters at code point 33 or above are not Python/Lean whitespace. -/
theorem char_not_whitespace_of_ge (c : Char) (h : 33 ≤ c.toNat) :
    c.isWhitespace = false := by
  have h32 : c ≠ ' ' := by intro hEq; rw [hEq] at h; exact absurd h (by decide)
  have h9 : c ≠ '\t' := by intro hEq; rw [hEq] at h; exact absurd h (by decide)
  have h13 : c ≠ '\r' := by intro hEq; rw [hEq] at h; exact absurd h (by decide)
  have h10 : c ≠ '\n' := by intro hEq; rw [hEq] at h; exact absurd h (by decide)
  simp [Char.isWhitespace, h32, h9, h13, h10]

/-- `Char.toLower` on an ASCII upper-case letter shifts the code point by 32. -/
theorem char_toLower_toNat_of_upper (c : Char) (h1 : 65 ≤ c.toNat)
    (h2 : c.toNat ≤ 90) : (Char.toLower c).toNat = c.toNat + 32 := by
  rw [Char.toLower, if_pos ⟨h1, h2⟩]
  exact char_toNat_ofNat _ (by omega)

/-- `Char.toLower` leaves non-upper-case characters unchanged. -/
theorem char_toLower_of_not_upper (c : Char)
    (h : ¬(c.toNat ≥ 65 ∧ c.toNat ≤ 90)) : Char.toLower c = c := by
  rw [Char.toLower, if_neg h]

/-- Lower-casing does not change whether a character is whitespace. -/
theorem char_isWhitespace_toLower (c : Char) :
    (Char.toLower c).isWhitespace = c.isWhitespace := by
  by_cases h : c.toNat ≥ 65 ∧ c.toNat ≤ 90
  · rw [char_not_whitespace_of_ge _ (by rw [char_toLower_toNat_of_upper c h.1 h.2]; omega),
        char_not_whitespace_of_ge _ (by omega)]
  · rw [char_toLower_of_not_upper c h]

/-- `Char.toLower` is idempotent. -/
theorem char_toLower_idem (c : Char) :
    Char.toLower (Char.toLower c) = Char.toLower c := by
  by_cases h : c.toNat ≥ 65 ∧ c.toNat ≤ 90
  · refine char_toLower_of_not_upper _ ?_
    rw [char_toLower_toNat_of_upper c h.1 h.2]
    omega
  · simp only [char_toLower_of_not_upper c h]

/-- Python `strip` is idempotent. -/
theorem pyStrip_idem (s : List Char) : pyStrip (pyStrip s) = pyStrip s := by
  unfold pyStrip
  cases hB : (s.dropWhile Char.isWhitespace).rdropWhile Char.isWhitespace with
  | nil => simp
  | cons b B =>
    obtain ⟨t, ht⟩ := List.rdropWhile_prefix
      (p := Char.isWhitespace) (l := s.dropWhile Char.isWhitespace)
    rw [hB] at ht
    have h0 := List.head?_dropWhile_not Char.isWhitespace s
    rw [← ht] at h0
    have hb : ¬ b.isWhitespace = true := by simpa using h0
    rw [List.dropWhile_cons_of_neg hb, ← hB, List.rdropWhile_idempotent]

/-- `strip` and `lower` commute (lower-casing preserves whitespace-status). -/
theorem pyStrip_pyLower_comm (s : List Char) :
    pyStrip (pyLower s) = pyLower (pyStrip s) := by
  have hcomp : Char.isWhitespace ∘ Char.toLower = Char.isWhitespace := by
    funext c
    exact char_isWhitespace_toLower c
  unfold pyStrip pyLower
  rw [List.dropWhile_map, hcomp, List.rdropWhile, List.rdropWhile,
      ← List.map_reverse, List.dropWhile_map, hcomp, ← List.map_reverse]

/-- Python `lower` is idempotent. -/
theorem pyLower_idem (s : List Char) : pyLower (pyLower s) = pyLower s := by
  simp only [pyLower, List.map_map]
  congr 1
  funext c
  exact char_toLower_idem c

/-- `lower` of a non-empty string is non-empty. -/
theorem pyLower_ne_nil (s : List Char) (h : s ≠ []) : pyLower s ≠ [] := by
  simpa [pyLower] using h

/-! ## Orchestrator lemmas -/

/-- When the indexed-document count is below the threshold, the orchestrator
runs the KeyBERT extractor and tags the result `"keybert"`. -/
theorem hybrid_keybert_branch (env : KeywordEnv) (threshold : Nat)
    (text : List Char) (documentId : Option Nat)
    (h : get_document_count env.countResult < threshold) :
    hybrid_extract_keywords env threshold text documentId =
      (keybert_extract_keywords env text).map
        (fun kws => (normalize_keywords kws, "keybert")) := by
  simp only [hybrid_extract_keywords, if_pos h]
  cases keybert_extract_keywords env text <;> rfl

/-- When the indexed-document count reaches the threshold, the orchestrator
runs the Elasticsearch extractor and tags the result `"elasticsearch"`. -/
theorem hybrid_elasticsearch_branch (env : KeywordEnv) (threshold : Nat)
    (text : List Char) (documentId : Option Nat)
    (h : threshold ≤ get_document_count env.countResult) :
    hybrid_extract_keywords env threshold text documentId =
      .ok (normalize_keywords (elasticsearch_extract_keywords env documentId),
           "elasticsearch") := by
  simp only [hybrid_extract_keywords, if_neg (Nat.not_lt.mpr h)]

/-- Every successful orchestrator result is a normalized keyword list. -/
theorem hybrid_result_is_normalized (env : KeywordEnv) (threshold : Nat)
    (text : List Char) (documentId : Option Nat)
    (kws : List (List Char)) (method : String)
    (h : hybrid_extract_keywords env threshold text documentId = .ok (kws, method)) :
    ∃ raw, kws = normalize_keywords raw := by
  by_cases hc : get_document_count env.countResult < threshold
  · rw [hybrid_keybert_branch env threshold text documentId hc] at h
    cases hk : keybert_extract_keywords env text with
    | ok k =>
      rw [hk] at h
      exact ⟨k, (congrArg Prod.fst (Except.ok.inj h)).symm⟩
    | error e =>
      rw [hk] at h
      exact absurd h (by simp [Except.map])
  · rw [hybrid_elasticsearch_branch env threshold text documentId (Nat.not_lt.mp hc)] at h
    exact ⟨elasticsearch_extract_keywords env documentId,
           (congrArg Prod.fst (Except.ok.inj h)).symm⟩

/-- The normalization step produces lower-cased, stripped, non-empty,
duplicate-free keyword lists. -/
theorem normalize_keywords_spec (keywords : List (List Char)) :
    (normalize_keywords keywords).Nodup ∧
    ∀ x ∈ normalize_keywords keywords,
      x ≠ [] ∧ pyStrip x = x ∧ pyLower x = x := by
  refine ⟨List.nodup_dedup _, ?_⟩
  intro x hx
  rw [normalize_keywords, List.mem_dedup] at hx
  obtain ⟨kw, hkw, rfl⟩ := List.mem_map.mp hx
  have hne : pyStrip kw ≠ [] := by
    have := List.of_mem_filter hkw
    simpa using this
  refine ⟨pyLower_ne_nil _ hne, ?_, pyLower_idem _⟩
  rw [pyStrip_pyLower_comm, pyStrip_idem]

/-! ## Claim theorems -/

/-- C1: for each extraction call, with `N` the indexed-document count read
from the search index at the start of the call and `T` the configured
threshold, the orchestrator runs the KeyBERT (embedding) extractor exactly
when `N < T` and the Elasticsearch (index-significance) extractor exactly
when `N >= T`. The branch condition mentions only `(N, T)` — the conclusion
holds for every `text` and `documentId` — and `N` is read from the
environment of the current call, so the choice is re-evaluated on every
call. -/
theorem hybrid_extract_keywords_selects_by_count (env : KeywordEnv)
    (threshold : Nat) (text : List Char) (documentId : Option Nat) :
    (get_document_count env.countResult < threshold →
      hybrid_extract_keywords env threshold text documentId =
        (keybert_extract_keywords env text).map
          (fun kws => (normalize_keywords kws, "keybert"))) ∧
    (threshold ≤ get_document_count env.countResult →
      hybrid_extract_keywords env threshold text documentId =
        .ok (normalize_keywords (elasticsearch_extract_keywords env documentId),
             "elasticsearch")) :=
  ⟨hybrid_keybert_branch env threshold text documentId,
   hybrid_elasticsearch_branch env threshold text documentId⟩

/-- Witness for C1: a call with count 3 and threshold 5 runs KeyBERT, a call
with count 7 and threshold 5 runs Elasticsearch. -/
theorem hybrid_extract_keywords_selects_by_count_witness :
    (get_document_count (Except.ok 3) < 5 ∧
      hybrid_extract_keywords ⟨.ok 3, .ok (), fun _ => .ok [], fun _ => .ok []⟩
          5 [] none =
        (keybert_extract_keywords ⟨.ok 3, .ok (), fun _ => .ok [], fun _ => .ok []⟩
            []).map (fun kws => (normalize_keywords kws, "keybert"))) ∧
    (5 ≤ get_document_count (Except.ok 7) ∧
      hybrid_extract_keywords ⟨.ok 7, .ok (), fun _ => .ok [], fun _ => .ok []⟩
          5 [] (some 1) =
        .ok (normalize_keywords (elasticsearch_extract_keywords
              ⟨.ok 7, .ok (), fun _ => .ok [], fun _ => .ok []⟩ (some 1)),
             "elasticsearch")) :=
  ⟨⟨by decide,
    (hybrid_extract_keywords_selects_by_count _ 5 [] none).1 (by decide)⟩,
   ⟨by decide,
    (hybrid_extract_keywords_selects_by_count _ 5 [] (some 1)).2 (by decide)⟩⟩

/-- C10: every MIME type in the upload validation set is dispatched by the
text extractor to a real format branch (never `unsupported`), and the HWP
MIME types handled by the extractor are rejected by upload validation. -/
theorem allowed_mime_types_dispatch :
    (∀ t ∈ ALLOWED_MIME_TYPES, extract_text_dispatch t ≠ .unsupported) ∧
    (∀ t ∈ HWP_MIME_TYPES,
      extract_text_dispatch t = .hwp ∧ t ∉ ALLOWED_MIME_TYPES) := by
  decide

/-- C9: when the Elasticsearch count query fails, `get_document_count`
reports `0` — exactly what it reports for an empty corpus — so for any
positive threshold the orchestrator silently runs the KeyBERT branch and
returns its keywords; in particular a successful KeyBERT call yields its
(normalized) keywords, not an empty error result. -/
theorem get_document_count_failure_falls_back_to_keybert (env : KeywordEnv)
    (threshold : Nat) (text : List Char) (documentId : Option Nat) (e : String)
    (hcount : env.countResult = .error e) (hT : 0 < threshold) :
    get_document_count env.countResult = 0 ∧
    get_document_count env.countResult = get_document_count (Except.ok 0) ∧
    hybrid_extract_keywords env threshold text documentId =
      (keybert_extract_keywords env text).map
        (fun kws => (normalize_keywords kws, "keybert")) ∧
    (∀ kws, env.keybertLoad = .ok () → env.keybertResult text = .ok kws →
      hybrid_extract_keywords env threshold text documentId =
        .ok (normalize_keywords kws, "keybert")) := by
  have h0 : get_document_count env.countResult = 0 := by rw [hcount]; rfl
  have hlt : get_document_count env.countResult < threshold := by omega
  refine ⟨h0, by rw [h0]; rfl, hybrid_keybert_branch env threshold text documentId hlt, ?_⟩
  intro kws hA hR
  rw [hybrid_keybert_branch env threshold text documentId hlt]
  simp only [keybert_extract_keywords, hA, hR]
  rfl

/-- Witness for C9: with the count call failing and threshold 5, the
orchestrator returns the KeyBERT keywords. -/
theorem get_document_count_failure_falls_back_to_keybert_witness :
    (⟨.error "es down", .ok (), fun _ => .ok [['a', 'i']], fun _ => .ok []⟩ :
        KeywordEnv).countResult = .error "es down" ∧
    0 < 5 ∧
    (get_document_count (⟨.error "es down", .ok (), fun _ => .ok [['a', 'i']],
        fun _ => .ok []⟩ : KeywordEnv).countResult = 0 ∧
     get_document_count (⟨.error "es down", .ok (), fun _ => .ok [['a', 'i']],
        fun _ => .ok []⟩ : KeywordEnv).countResult = get_document_count (Except.ok 0) ∧
     hybrid_extract_keywords ⟨.error "es down", .ok (), fun _ => .ok [['a', 'i']],
        fun _ => .ok []⟩ 5 [] none =
       (keybert_extract_keywords ⟨.error "es down", .ok (), fun _ => .ok [['a', 'i']],
          fun _ => .ok []⟩ []).map (fun kws => (normalize_keywords kws, "keybert")) ∧
     (∀ kws, (⟨.error "es down", .ok (), fun _ => .ok [['a', 'i']], fun _ => .ok []⟩ :
          KeywordEnv).keybertLoad = .ok () →
        (⟨.error "es down", .ok (), fun _ => .ok [['a', 'i']], fun _ => .ok []⟩ :
          KeywordEnv).keybertResult [] = .ok kws →
        hybrid_extract_keywords ⟨.error "es down", .ok (), fun _ => .ok [['a', 'i']],
          fun _ => .ok []⟩ 5 [] none = .ok (normalize_keywords kws, "keybert"))) :=
  ⟨rfl, by decide,
   get_document_count_failure_falls_back_to_keybert _ 5 [] none "es down" rfl
     (by decide)⟩

/-- C4: every keyword list returned by the orchestrator — whichever strategy
produced the raw candidates — contains only lower-cased, stripped, non-empty
strings, with no duplicates. -/
theorem hybrid_extract_keywords_normalized (env : KeywordEnv) (threshold : Nat)
    (text : List Char) (documentId : Option Nat)
    (kws : List (List Char)) (method : String)
    (h : hybrid_extract_keywords env threshold text documentId = .ok (kws, method)) :
    kws.Nodup ∧ ∀ x ∈ kws, x ≠ [] ∧ pyStrip x = x ∧ pyLower x = x := by
  obtain ⟨raw, rfl⟩ :=
    hybrid_result_is_normalized env threshold text documentId kws method h
  exact normalize_keywords_spec raw

/-- Witness for C4: a KeyBERT result `[" Hi "]` comes back as `["hi"]` —
lower-cased, stripped, non-empty, duplicate-free. -/
theorem hybrid_extract_keywords_normalized_witness :
    hybrid_extract_keywords
        ⟨.ok 0, .ok (), fun _ => .ok [[' ', 'H', 'i', ' ']], fun _ => .ok []⟩
        5 [] none = .ok ([['h', 'i']], "keybert") ∧
    (([['h', 'i']] : List (List Char)).Nodup ∧
     ∀ x ∈ ([['h', 'i']] : List (List Char)),
       x ≠ [] ∧ pyStrip x = x ∧ pyLower x = x) :=
  ⟨by rfl,
   hybrid_extract_keywords_normalized
     ⟨.ok 0, .ok (), fun _ => .ok [[' ', 'H', 'i', ' ']], fun _ => .ok []⟩
     5 [] none [['h', 'i']] "keybert" (by rfl)⟩

/-- Counterexample to C2 as stated: on the cold-start path a KeyBERT load
failure raises to the orchestrator's caller instead of returning an empty
keyword list — both the re-raised `ImportError` when the library is
missing, and an uncaught `KeyBERT()` constructor failure (`_load_model`'s
`try` catches only `ImportError`). -/
theorem hybrid_extract_keywords_raises_when_keybert_missing :
    hybrid_extract_keywords ⟨.ok 0, .error "ImportError: keybert", fun _ => .ok [], fun _ => .ok []⟩
        5 [] none = .error "ImportError: keybert" ∧
    hybrid_extract_keywords ⟨.ok 0, .error "ImportError: keybert", fun _ => .ok [], fun _ => .ok []⟩
        5 [] none ≠ .ok ([], "keybert") ∧
    hybrid_extract_keywords
        ⟨.ok 0, .error "OSError: KeyBERT() model download failed",
         fun _ => .ok [], fun _ => .ok []⟩ 5 [] none =
      .error "OSError: KeyBERT() model download failed" :=
  ⟨rfl, fun h => Except.noConfusion h, rfl⟩

/-- C2 (amended): provided the KeyBERT model loads — both the import and
the `KeyBERT()` construction succeed — the orchestrator never raises; a
failing KeyBERT model call on the cold-start path yields `([], "keybert")`,
and an Elasticsearch failure on the index-significance path yields
`([], "elasticsearch")` — an empty list with an accurate method tag. (A
load failure — the re-raised `ImportError` for a missing library, or an
uncaught `KeyBERT()` constructor error, since `_load_model`'s `try`
catches only `ImportError` and the `_load_model()` call sits outside the
extractor's own `try` — propagates to the caller; see the
counterexample.) -/
theorem hybrid_extract_keywords_failure_semantics (env : KeywordEnv)
    (threshold : Nat) (text : List Char) (documentId : Option Nat)
    (hk : env.keybertLoad = .ok ()) :
    (∃ kws method,
      hybrid_extract_keywords env threshold text documentId = .ok (kws, method)) ∧
    (∀ e, get_document_count env.countResult < threshold →
      env.keybertResult text = .error e →
      hybrid_extract_keywords env threshold text documentId =
        .ok ([], "keybert")) ∧
    (∀ id e, documentId = some id →
      threshold ≤ get_document_count env.countResult →
      env.esSignificant id = .error e →
      hybrid_extract_keywords env threshold text documentId =
        .ok ([], "elasticsearch")) := by
  refine ⟨?_, ?_, ?_⟩
  · by_cases hc : get_document_count env.countResult < threshold
    · rw [hybrid_keybert_branch env threshold text documentId hc]
      cases hR : env.keybertResult text with
      | ok k =>
        simp only [keybert_extract_keywords, hk, hR]
        exact ⟨normalize_keywords k, "keybert", rfl⟩
      | error e =>
        simp only [keybert_extract_keywords, hk, hR]
        exact ⟨normalize_keywords [], "keybert", rfl⟩
    · rw [hybrid_elasticsearch_branch env threshold text documentId (Nat.not_lt.mp hc)]
      exact ⟨_, _, rfl⟩
  · intro e hc hR
    rw [hybrid_keybert_branch env threshold text documentId hc]
    simp only [keybert_extract_keywords, hk, hR]
    rfl
  · intro id e hid hc hR
    rw [hybrid_elasticsearch_branch env threshold text documentId hc, hid]
    simp [elasticsearch_extract_keywords, hR, normalize_keywords]

/-- Witness for the amended C2: with the KeyBERT model loaded, a failing
KeyBERT model call and a failing Elasticsearch call both leave the
orchestrator returning `.ok` results. -/
theorem hybrid_extract_keywords_failure_semantics_witness :
    (⟨.ok 0, .ok (), fun _ => .error "model crashed", fun _ => .error "es down"⟩ :
        KeywordEnv).keybertLoad = .ok () ∧
    ((∃ kws method,
       hybrid_extract_keywords
           ⟨.ok 0, .ok (), fun _ => .error "model crashed", fun _ => .error "es down"⟩
           5 [] (some 1) = .ok (kws, method)) ∧
     (∀ e, get_document_count (⟨.ok 0, .ok (), fun _ => .error "model crashed",
          fun _ => .error "es down"⟩ : KeywordEnv).countResult < 5 →
       (⟨.ok 0, .ok (), fun _ => .error "model crashed", fun _ => .error "es down"⟩ :
          KeywordEnv).keybertResult [] = .error e →
       hybrid_extract_keywords
           ⟨.ok 0, .ok (), fun _ => .error "model crashed", fun _ => .error "es down"⟩
           5 [] (some 1) = .ok ([], "keybert")) ∧
     (∀ id e, (some 1 : Option Nat) = some id →
       5 ≤ get_document_count (⟨.ok 0, .ok (), fun _ => .error "model crashed",
          fun _ => .error "es down"⟩ : KeywordEnv).countResult →
       (⟨.ok 0, .ok (), fun _ => .error "model crashed", fun _ => .error "es down"⟩ :
          KeywordEnv).esSignificant id = .error e →
       hybrid_extract_keywords
           ⟨.ok 0, .ok (), fun _ => .error "model crashed", fun _ => .error "es down"⟩
           5 [] (some 1) = .ok ([], "elasticsearch"))) :=
  ⟨rfl,
   hybrid_extract_keywords_failure_semantics
     ⟨.ok 0, .ok (), fun _ => .error "model crashed", fun _ => .error "es down"⟩
     5 [] (some 1) rfl⟩

/-- C5: when text extraction returns no text or a text whose stripped length
is below 10 characters, the upload still succeeds: the pipeline returns the
already-persisted document with an empty tag list and method `"none"`,
without raising, and both the stored blob and the Document row remain in
place. -/
theorem upload_document_degrades_on_unusable_text (env : UploadEnv)
    (threshold : Nat) (contentType : String) (documentId : Nat)
    (hmime : contentType ∈ ALLOWED_MIME_TYPES)
    (hminio : env.minioUpload = .ok ())
    (hdb : env.dbCreate = .ok documentId)
    (htext : env.extractText = none ∨
      ∃ t, env.extractText = some t ∧
        (t.isEmpty || (pyStrip t).length < 10) = true) :
    upload_document env threshold contentType =
      (.ok documentId [] "none", ⟨true, true⟩) := by
  rcases htext with h | ⟨t, ht, hshort⟩
  · simp [upload_document, not_not_intro hmime, hminio, hdb, h]
  · simp [upload_document, not_not_intro hmime, hminio, hdb, ht, hshort]

/-- Witness for C5: uploading a PDF whose extraction yields no text returns
the persisted document, no tags, and method `"none"`. -/
theorem upload_document_degrades_on_unusable_text_witness :
    "application/pdf" ∈ ALLOWED_MIME_TYPES ∧
    (⟨.ok (), .ok 42, none, true, ⟨.ok 0, .ok (), fun _ => .ok [], fun _ => .ok []⟩,
        .ok []⟩ : UploadEnv).minioUpload = .ok () ∧
    (⟨.ok (), .ok 42, none, true, ⟨.ok 0, .ok (), fun _ => .ok [], fun _ => .ok []⟩,
        .ok []⟩ : UploadEnv).dbCreate = .ok 42 ∧
    upload_document
        ⟨.ok (), .ok 42, none, true, ⟨.ok 0, .ok (), fun _ => .ok [], fun _ => .ok []⟩,
         .ok []⟩ 5 "application/pdf" =
      (.ok 42 [] "none", ⟨true, true⟩) :=
  ⟨by decide, rfl, rfl,
   upload_document_degrades_on_unusable_text _ 5 "application/pdf" 42
     (by decide) rfl rfl (Or.inl rfl)⟩

/-- Counterexample to C6 as stated: (i) when the blob deletion raises, the
Document-row deletion is never attempted (the claim says it still must be);
(ii) when the blob delete succeeds but the row delete fails, the row is left
in place even though the blob delete is known to have succeeded. -/
theorem delete_document_row_not_attempted_cex :
    ((delete_document ⟨some "1/a.pdf", .error "S3Error", true⟩).1 =
        .rejected 500 ∧
     (delete_document
        ⟨some "1/a.pdf", .error "S3Error", true⟩).2.rowDeleteAttempted = false) ∧
    ((delete_document ⟨some "1/b.pdf", .ok (), false⟩).2.blobDeleted = true ∧
     (delete_document ⟨some "1/b.pdf", .ok (), false⟩).2.rowDeleted = false) :=
  ⟨⟨rfl, rfl⟩, ⟨rfl, rfl⟩⟩

/-- C6 (amended): the blob is deleted before the Document row; if the blob
deletion fails, the operation is reported as failed (HTTP 500) and the row
deletion is not attempted; if the blob deletion succeeds, the row deletion
is attempted, its failure is reported as HTTP 500 (leaving the row), and its
success completes the deletion of both artefacts. -/
theorem delete_document_failure_semantics (env : DeleteEnv) (p : String)
    (hfound : env.findDocument = some p) :
    ((delete_document env).2.rowDeleteAttempted = true →
      (delete_document env).2.blobDeleted = true) ∧
    (∀ e, env.minioDelete = .error e →
      delete_document env = (.rejected 500, ⟨true, false, false, false⟩)) ∧
    (env.minioDelete = .ok () →
      (delete_document env).2.rowDeleteAttempted = true ∧
      (env.dbDelete = false → (delete_document env).1 = .rejected 500) ∧
      (env.dbDelete = true →
        delete_document env = (.ok, ⟨true, true, true, true⟩))) := by
  cases hm : env.minioDelete with
  | error e =>
    simp [delete_document, hfound, hm]
  | ok u =>
    cases u
    by_cases hd : env.dbDelete
    · simp [delete_document, hfound, hm, hd]
    · simp [delete_document, hfound, hm, hd]

/-- Witness for the amended C6: a found document whose blob and row deletes
both succeed is fully deleted. -/
theorem delete_document_failure_semantics_witness :
    (⟨some "1/c.pdf", .ok (), true⟩ : DeleteEnv).findDocument = some "1/c.pdf" ∧
    (((delete_document ⟨some "1/c.pdf", .ok (), true⟩).2.rowDeleteAttempted = true →
       (delete_document ⟨some "1/c.pdf", .ok (), true⟩).2.blobDeleted = true) ∧
     (∀ e, (⟨some "1/c.pdf", .ok (), true⟩ : DeleteEnv).minioDelete = .error e →
       delete_document ⟨some "1/c.pdf", .ok (), true⟩ =
         (.rejected 500, ⟨true, false, false, false⟩)) ∧
     ((⟨some "1/c.pdf", .ok (), true⟩ : DeleteEnv).minioDelete = .ok () →
       (delete_document ⟨some "1/c.pdf", .ok (), true⟩).2.rowDeleteAttempted = true ∧
       ((⟨some "1/c.pdf", .ok (), true⟩ : DeleteEnv).dbDelete = false →
         (delete_document ⟨some "1/c.pdf", .ok (), true⟩).1 = .rejected 500) ∧
       ((⟨some "1/c.pdf", .ok (), true⟩ : DeleteEnv).dbDelete = true →
         delete_document ⟨some "1/c.pdf", .ok (), true⟩ =
           (.ok, ⟨true, true, true, true⟩)))) :=
  ⟨rfl, delete_document_failure_semantics ⟨some "1/c.pdf", .ok (), true⟩ "1/c.pdf" rfl⟩

/-- Every row produced by `enumFrom` carries a name from the input list. -/
theorem enumFrom_snd_mem (i : Nat) (l : List String) (r : Nat × String)
    (h : r ∈ List.enumFrom i l) : r.2 ∈ l := by
  have hmap := List.enumFrom_map_snd i l
  rw [← hmap]
  exact List.mem_map_of_mem Prod.snd h

/-- C7: `bulk_get_or_create` is idempotent — if a call returns table `db₁`
and tags `tags₁`, then a second call with the same names on `db₁` returns
exactly the same tags (hence the same ids) and leaves the table unchanged
(zero rows created); a name that already exists is never created again. -/
theorem bulk_get_or_create_idempotent (db db₁ : TagDB) (names : List String)
    (tags₁ : List (Nat × String))
    (h1 : bulk_get_or_create db names = .ok (db₁, tags₁)) :
    bulk_get_or_create db₁ names = .ok (db₁, tags₁) := by
  by_cases hnil : names = []
  · subst hnil
    rw [show bulk_get_or_create db [] = .ok (db, []) from rfl] at h1
    have hdb1 : db = db₁ := congrArg Prod.fst (Except.ok.inj h1)
    have ht1 : ([] : List (Nat × String)) = tags₁ :=
      congrArg Prod.snd (Except.ok.inj h1)
    subst hdb1
    rw [show bulk_get_or_create db [] = .ok (db, []) from rfl, ht1]
  · have hEb : names.isEmpty = false := by simpa using hnil
    simp only [bulk_get_or_create, find_all_by_names, hEb, Bool.false_eq_true,
               if_false] at h1 ⊢
    set E := db.rows.filter (fun r => names.contains r.2) with hEdef
    set NN := names.filter (fun n => !(E.map Prod.snd).contains n) with hNNdef
    by_cases hNNe : NN.isEmpty
    · rw [if_pos hNNe] at h1
      have hdb1 : db = db₁ := congrArg Prod.fst (Except.ok.inj h1)
      have ht1 : E = tags₁ := congrArg Prod.snd (Except.ok.inj h1)
      subst hdb1
      rw [hEdef] at ht1
      rw [if_pos hNNe, ht1]
    · rw [if_neg hNNe] at h1
      cases hbc : bulk_create db NN with
      | error e =>
        rw [hbc] at h1
        exact absurd h1 (by simp)
      | ok pr =>
        obtain ⟨db', nt⟩ := pr
        rw [hbc] at h1
        have hdb' : db' = db₁ := congrArg Prod.fst (Except.ok.inj h1)
        have htags : E ++ nt = tags₁ := congrArg Prod.snd (Except.ok.inj h1)
        rw [bulk_create] at hbc
        by_cases hg : NN.Nodup ∧
            ∀ n ∈ NN, ((db.rows.map Prod.snd).contains n) = false
        · rw [if_pos hg] at hbc
          have hstruct : TagDB.mk (db.rows ++ List.enumFrom db.nextId NN)
              (db.nextId + NN.length) = db' :=
            congrArg Prod.fst (Except.ok.inj hbc)
          have hnt : List.enumFrom db.nextId NN = nt :=
            congrArg Prod.snd (Except.ok.inj hbc)
          have hrows : db₁.rows = db.rows ++ List.enumFrom db.nextId NN := by
            rw [← hdb', ← hstruct]
          have hfilter2 : db₁.rows.filter (fun r => names.contains r.2) =
              E ++ nt := by
            rw [hrows, List.filter_append, ← hnt, ← hEdef]
            congr 1
            apply List.filter_eq_self.mpr
            intro r hr
            have hrn : r.2 ∈ names := by
              have h2 := enumFrom_snd_mem _ _ _ hr
              rw [hNNdef] at h2
              exact (List.mem_filter.mp h2).1
            simp [List.contains, hrn]
          have hNN2 : names.filter (fun n =>
              !((db₁.rows.filter (fun r => names.contains r.2)).map
                  Prod.snd).contains n) = [] := by
            apply List.filter_eq_nil_iff.mpr
            intro n hn
            rw [hfilter2, List.map_append, ← hnt, List.enumFrom_map_snd]
            by_cases hin : n ∈ E.map Prod.snd
            · simp [List.contains, hin]
            · have hmemNN : n ∈ NN := by
                rw [hNNdef]
                exact List.mem_filter.mpr ⟨hn, by simp [List.contains, hin]⟩
              simp [List.contains, hmemNN]
          rw [hNN2, if_pos (show ([] : List String).isEmpty = true from rfl),
              hfilter2, htags]
        · rw [if_neg hg] at hbc
          exact absurd hbc (by simp)

/-- Witness for C7: creating `["python", "backend"]` in an empty table and
calling again returns the same two tags and creates nothing. -/
theorem bulk_get_or_create_idempotent_witness :
    bulk_get_or_create ⟨[], 1⟩ ["python", "backend"] =
      .ok (⟨[(1, "python"), (2, "backend")], 3⟩,
           [(1, "python"), (2, "backend")]) ∧
    bulk_get_or_create ⟨[(1, "python"), (2, "backend")], 3⟩
        ["python", "backend"] =
      .ok (⟨[(1, "python"), (2, "backend")], 3⟩,
           [(1, "python"), (2, "backend")]) :=
  ⟨by rfl,
   bulk_get_or_create_idempotent ⟨[], 1⟩ ⟨[(1, "python"), (2, "backend")], 3⟩
     ["python", "backend"] [(1, "python"), (2, "backend")] (by rfl)⟩

/-- `bulk_read_phase` on a non-empty name list. -/
theorem bulk_read_phase_eq (db : TagDB) (names : List String) (h : names ≠ []) :
    bulk_read_phase db names =
      (db.rows.filter (fun r => names.contains r.2),
       names.filter (fun n =>
         !((db.rows.filter (fun r => names.contains r.2)).map
             Prod.snd).contains n)) := by
  simp [bulk_read_phase, find_all_by_names, h]

/-- A commit that inserts a name already present in the table fails with the
unique-index violation and changes nothing. -/
theorem bulk_create_conflict (db : TagDB) (names : List String) (n : String)
    (hn : n ∈ names) (hdb : n ∈ db.rows.map Prod.snd) :
    bulk_create db names = .error
      "IntegrityError: duplicate key value violates unique index ix_tags_name" := by
  rw [bulk_create, if_neg]
  intro hg
  have := hg.2 n hn
  simp [List.contains, hdb] at this

/-- A commit of duplicate-free names absent from the table succeeds and
appends freshly-numbered rows. -/
theorem bulk_create_fresh (db : TagDB) (names : List String)
    (hnd : names.Nodup)
    (hfresh : ∀ m ∈ names, ¬ m ∈ db.rows.map Prod.snd) :
    bulk_create db names =
      .ok (TagDB.mk (db.rows ++ List.enumFrom db.nextId names)
             (db.nextId + names.length),
           List.enumFrom db.nextId names) := by
  rw [bulk_create, if_pos]
  refine ⟨hnd, fun m hm => ?_⟩
  simp [List.contains, hfresh m hm]

/-- Names in the to-create list of a read phase are absent from the table. -/
theorem new_names_fresh (db : TagDB) (names : List String) (m : String)
    (hm : m ∈ names.filter (fun x =>
      !((db.rows.filter (fun r => names.contains r.2)).map Prod.snd).contains x)) :
    ¬ m ∈ db.rows.map Prod.snd := by
  obtain ⟨hmn, hnc⟩ := List.mem_filter.mp hm
  intro hmem
  obtain ⟨r, hr, hr2⟩ := List.mem_map.mp hmem
  have hrE : r ∈ db.rows.filter (fun r => decide (r.2 ∈ names)) := by
    refine List.mem_filter.mpr ⟨hr, ?_⟩
    rw [hr2]
    simpa using hmn
  simp only [List.contains, List.elem_eq_mem, Bool.not_eq_true',
             decide_eq_false_iff_not] at hnc
  exact hnc (List.mem_map.mpr ⟨r, hrE, hr2⟩)

/-- Counterexample to C8 as stated: two interleaved calls sharing the new
name `"python"` on an empty table — the second caller receives the
duplicate-key violation instead of converging to the winner's id. -/
theorem interleaved_bulk_get_or_create_error_cex :
    interleaved_bulk_get_or_create ⟨[], 1⟩ ["python"] ["python"] =
      (⟨[(1, "python")], 2⟩, .ok [(1, "python")],
       .error "IntegrityError: duplicate key value violates unique index ix_tags_name") ∧
    (interleaved_bulk_get_or_create ⟨[], 1⟩ ["python"] ["python"]).2.2 ≠
      Except.ok [(1, "python")] :=
  ⟨rfl, fun h => Except.noConfusion h⟩

/-- A name not present in a list of names makes `contains` false. -/
theorem contains_eq_false_of_not_mem {l : List String} {a : String}
    (h : ¬ a ∈ l) : l.contains a = false := by
  simp [List.contains, h]

/-- C8 (amended): under the interleaving "A reads, B reads, A commits,
B commits" with a shared name `n` new to the table, exactly one row named
`n` results — the unique index `ix_tags_name` prevents the duplicate — and
caller A receives tags containing `n`, but caller B receives the
duplicate-key violation instead of converging to A's id. -/
theorem interleaved_bulk_get_or_create_unique_row (db : TagDB)
    (namesA namesB : List String) (n : String)
    (hdbn : ¬ n ∈ db.rows.map Prod.snd)
    (hA : namesA.Nodup) (hnA : n ∈ namesA) (hnB : n ∈ namesB) :
    ((interleaved_bulk_get_or_create db namesA namesB).1.rows.map
        Prod.snd).count n = 1 ∧
    (∃ tags, (interleaved_bulk_get_or_create db namesA namesB).2.1 =
        .ok tags ∧ n ∈ tags.map Prod.snd) ∧
    (∃ e, (interleaved_bulk_get_or_create db namesA namesB).2.2 =
        .error e) := by
  have hAne : namesA ≠ [] := List.ne_nil_of_mem hnA
  have hBne : namesB ≠ [] := List.ne_nil_of_mem hnB
  have hsubE : ∀ (names : List String) (m : String),
      m ∈ (db.rows.filter (fun r => names.contains r.2)).map Prod.snd →
      m ∈ db.rows.map Prod.snd := by
    intro names m hm
    obtain ⟨r, hr, hr2⟩ := List.mem_map.mp hm
    exact List.mem_map.mpr ⟨r, (List.mem_filter.mp hr).1, hr2⟩
  have hnnewA : n ∈ namesA.filter (fun m =>
      !((db.rows.filter (fun r => namesA.contains r.2)).map
          Prod.snd).contains m) := by
    refine List.mem_filter.mpr ⟨hnA, ?_⟩
    rw [contains_eq_false_of_not_mem (fun h => hdbn (hsubE namesA n h))]
    rfl
  have hnnewB : n ∈ namesB.filter (fun m =>
      !((db.rows.filter (fun r => namesB.contains r.2)).map
          Prod.snd).contains m) := by
    refine List.mem_filter.mpr ⟨hnB, ?_⟩
    rw [contains_eq_false_of_not_mem (fun h => hdbn (hsubE namesB n h))]
    rfl
  have hnewAnd : (namesA.filter (fun m =>
      !((db.rows.filter (fun r => namesA.contains r.2)).map
          Prod.snd).contains m)).Nodup := hA.filter _
  have hcreateA := bulk_create_fresh db
    (namesA.filter (fun m =>
      !((db.rows.filter (fun r => namesA.contains r.2)).map
          Prod.snd).contains m))
    hnewAnd (fun m hm => new_names_fresh db namesA m hm)
  have hnin1 : n ∈ (db.rows ++ List.enumFrom db.nextId
      (namesA.filter (fun m =>
        !((db.rows.filter (fun r => namesA.contains r.2)).map
            Prod.snd).contains m))).map Prod.snd := by
    rw [List.map_append, List.enumFrom_map_snd]
    exact List.mem_append.mpr (Or.inr hnnewA)
  have hconflictB := bulk_create_conflict
    (TagDB.mk (db.rows ++ List.enumFrom db.nextId
       (namesA.filter (fun m =>
         !((db.rows.filter (fun r => namesA.contains r.2)).map
             Prod.snd).contains m)))
       (db.nextId + (namesA.filter (fun m =>
         !((db.rows.filter (fun r => namesA.contains r.2)).map
             Prod.snd).contains m)).length))
    (namesB.filter (fun m =>
      !((db.rows.filter (fun r => namesB.contains r.2)).map
          Prod.snd).contains m))
    n hnnewB hnin1
  have hAe : (namesA.filter (fun m =>
      !((db.rows.filter (fun r => namesA.contains r.2)).map
          Prod.snd).contains m)).isEmpty = false := by
    simpa using List.ne_nil_of_mem hnnewA
  have hBe : (namesB.filter (fun m =>
      !((db.rows.filter (fun r => namesB.contains r.2)).map
          Prod.snd).contains m)).isEmpty = false := by
    simpa using List.ne_nil_of_mem hnnewB
  simp only [interleaved_bulk_get_or_create, bulk_read_phase_eq db namesA hAne,
             bulk_read_phase_eq db namesB hBne, bulk_write_phase, hAe, hBe,
             Bool.false_eq_true, if_false, hcreateA, hconflictB]
  refine ⟨?_, ⟨_, rfl, ?_⟩, ⟨_, rfl⟩⟩
  · rw [List.map_append, List.enumFrom_map_snd, List.count_append,
        List.count_eq_zero.mpr hdbn, List.count_eq_one_of_mem hnewAnd hnnewA]
  · rw [List.map_append, List.enumFrom_map_snd]
    exact List.mem_append.mpr (Or.inr hnnewA)

/-- Witness for the amended C8: the concrete race on `"python"` over an
empty table — one row, A wins, B gets the violation. -/
theorem interleaved_bulk_get_or_create_unique_row_witness :
    ¬ "python" ∈ (⟨[], 1⟩ : TagDB).rows.map Prod.snd ∧
    (["python"] : List String).Nodup ∧
    "python" ∈ (["python"] : List String) ∧
    (((interleaved_bulk_get_or_create ⟨[], 1⟩ ["python"] ["python"]).1.rows.map
        Prod.snd).count "python" = 1 ∧
     (∃ tags,
        (interleaved_bulk_get_or_create ⟨[], 1⟩ ["python"] ["python"]).2.1 =
          .ok tags ∧ "python" ∈ tags.map Prod.snd) ∧
     (∃ e, (interleaved_bulk_get_or_create ⟨[], 1⟩ ["python"] ["python"]).2.2 =
        .error e)) :=
  ⟨by decide, by decide, by decide,
   interleaved_bulk_get_or_create_unique_row ⟨[], 1⟩ ["python"] ["python"]
     "python" (by decide) (by decide) (by decide) (by decide)⟩

/-- C3: for every index state (term statistics `stats` in response order,
corpus document count `total`) and any comparator `le` that decides the
order of the code's score `tf * (ln((total+1)/(df+1)) + 1)`,
`extract_significant_terms` returns the top `size` terms of a list that
(i) is a permutation of the length-filtered terms (characters 2..30),
(ii) is sorted descending by that score, and (iii) is stable — any
equal-score subsequence keeps its original response order. Being a pure
function of `(stats, total, size, le)`, the result is deterministic for a
fixed index state. -/
theorem extract_significant_terms_spec
    (stats : List TermStat) (total size : Nat)
    (le : TermStat → TermStat → Bool)
    (hle : ∀ a b, le a b = true ↔
      (b.tf : ℝ) * (Real.log (((total : ℝ) + 1) / ((b.df : ℝ) + 1)) + 1) ≤
      (a.tf : ℝ) * (Real.log (((total : ℝ) + 1) / ((a.df : ℝ) + 1)) + 1)) :
    ∃ sorted : List TermStat,
      extract_significant_terms le stats size =
        (sorted.map TermStat.term).take size ∧
      sorted.Perm (stats.filter term_length_ok) ∧
      sorted.Pairwise (fun a b =>
        (b.tf : ℝ) * (Real.log (((total : ℝ) + 1) / ((b.df : ℝ) + 1)) + 1) ≤
        (a.tf : ℝ) * (Real.log (((total : ℝ) + 1) / ((a.df : ℝ) + 1)) + 1)) ∧
      (∀ c : List TermStat, c.Sublist (stats.filter term_length_ok) →
        c.Pairwise (fun a b =>
          (a.tf : ℝ) * (Real.log (((total : ℝ) + 1) / ((a.df : ℝ) + 1)) + 1) =
          (b.tf : ℝ) * (Real.log (((total : ℝ) + 1) / ((b.df : ℝ) + 1)) + 1)) →
        c.Sublist sorted) := by
  have htrans : ∀ a b c : TermStat, le a b → le b c → le a c := by
    intro a b c hab hbc
    exact (hle a c).mpr (le_trans ((hle b c).mp hbc) ((hle a b).mp hab))
  have htotal : ∀ a b : TermStat, le a b || le b a := by
    intro a b
    rcases le_total
        ((b.tf : ℝ) * (Real.log (((total : ℝ) + 1) / ((b.df : ℝ) + 1)) + 1))
        ((a.tf : ℝ) * (Real.log (((total : ℝ) + 1) / ((a.df : ℝ) + 1)) + 1))
      with h | h
    · simp [(hle a b).mpr h]
    · simp [(hle b a).mpr h]
  refine ⟨(stats.filter term_length_ok).mergeSort le, rfl, ?_, ?_, ?_⟩
  · exact List.mergeSort_perm _ le
  · exact (List.sorted_mergeSort htrans htotal _).imp (fun h => (hle _ _).mp h)
  · intro c hsub hpair
    exact List.sublist_mergeSort htrans htotal
      (hpair.imp (fun h => (hle _ _).mpr (le_of_eq h.symm))) hsub

/-- Witness for C3: three response terms with corpus count 3, compared by
the exact real-valued score; the classical order decides the comparator. -/
theorem extract_significant_terms_spec_witness :
    (∀ a b : TermStat,
      (fun a b : TermStat => decide
        ((b.tf : ℝ) * (Real.log ((((3 : Nat) : ℝ) + 1) / ((b.df : ℝ) + 1)) + 1) ≤
         (a.tf : ℝ) * (Real.log ((((3 : Nat) : ℝ) + 1) / ((a.df : ℝ) + 1)) + 1)))
          a b = true ↔
      (b.tf : ℝ) * (Real.log ((((3 : Nat) : ℝ) + 1) / ((b.df : ℝ) + 1)) + 1) ≤
      (a.tf : ℝ) * (Real.log ((((3 : Nat) : ℝ) + 1) / ((a.df : ℝ) + 1)) + 1)) ∧
    ∃ sorted : List TermStat,
      extract_significant_terms
          (fun a b : TermStat => decide
            ((b.tf : ℝ) * (Real.log ((((3 : Nat) : ℝ) + 1) / ((b.df : ℝ) + 1)) + 1) ≤
             (a.tf : ℝ) * (Real.log ((((3 : Nat) : ℝ) + 1) / ((a.df : ℝ) + 1)) + 1)))
          [⟨"alpha", 2, 0⟩, ⟨"x", 9, 0⟩, ⟨"beta", 1, 0⟩] 2 =
        (sorted.map TermStat.term).take 2 ∧
      sorted.Perm
        ([⟨"alpha", 2, 0⟩, ⟨"x", 9, 0⟩, ⟨"beta", 1, 0⟩].filter term_length_ok) ∧
      sorted.Pairwise (fun a b =>
        (b.tf : ℝ) * (Real.log ((((3 : Nat) : ℝ) + 1) / ((b.df : ℝ) + 1)) + 1) ≤
        (a.tf : ℝ) * (Real.log ((((3 : Nat) : ℝ) + 1) / ((a.df : ℝ) + 1)) + 1)) ∧
      (∀ c : List TermStat,
        c.Sublist
          ([⟨"alpha", 2, 0⟩, ⟨"x", 9, 0⟩, ⟨"beta", 1, 0⟩].filter term_length_ok) →
        c.Pairwise (fun a b =>
          (a.tf : ℝ) * (Real.log ((((3 : Nat) : ℝ) + 1) / ((a.df : ℝ) + 1)) + 1) =
          (b.tf : ℝ) * (Real.log ((((3 : Nat) : ℝ) + 1) / ((b.df : ℝ) + 1)) + 1)) →
        c.Sublist sorted) :=
  ⟨fun a b => by rw [decide_eq_true_eq],
   extract_significant_terms_spec [⟨"alpha", 2, 0⟩, ⟨"x", 9, 0⟩, ⟨"beta", 1, 0⟩] 3 2
     (fun a b : TermStat => decide
       ((b.tf : ℝ) * (Real.log ((((3 : Nat) : ℝ) + 1) / ((b.df : ℝ) + 1)) + 1) ≤
        (a.tf : ℝ) * (Real.log ((((3 : Nat) : ℝ) + 1) / ((a.df : ℝ) + 1)) + 1)))
     (fun a b => by rw [decide_eq_true_eq])⟩

/-- Witness for C10: the PDF type is accepted and dispatched; the HWP type
is dispatched but rejected at upload validation. -/
theorem allowed_mime_types_dispatch_witness :
    ("application/pdf" ∈ ALLOWED_MIME_TYPES ∧
      extract_text_dispatch "application/pdf" ≠ ExtractorBranch.unsupported) ∧
    ("application/x-hwp" ∈ HWP_MIME_TYPES ∧
      extract_text_dispatch "application/x-hwp" = ExtractorBranch.hwp ∧
      "application/x-hwp" ∉ ALLOWED_MIME_TYPES) :=
  ⟨⟨by decide, allowed_mime_types_dispatch.1 "application/pdf" (by decide)⟩,
   ⟨by decide, allowed_mime_types_dispatch.2 "application/x-hwp" (by decide)⟩⟩
